import Mathlib

/-!
Shallow embedding of the WCAGAI v4.0 backend authentication / rate-limiting
middleware (`backend/src/middleware/auth.js`), together with the facts proved
about it.

Modelling conventions:
* JavaScript `undefined`-able values are `Option`; the JS `v || d` idiom is
  `jsOrStr` / `jsOrInt` (the empty string and `0` are falsy).
* The `jsonwebtoken` library (an external dependency, used through
  `jwt.sign` / `jwt.verify`) is modelled symbolically: a wire token is a
  body of "bytes" (naturals) plus a signature; `macSig` is an idealized
  deterministic MAC (injective in the message for a fixed secret, and not
  computable without the secret in the symbolic sense).  `jwt.verify`
  checks the signature, decodes the body, and compares the `exp` claim
  (in seconds) against the clock; it reports `TokenExpiredError`
  (`JwtError.expired`) and `JsonWebTokenError` (`JwtError.invalid`)
  separately, as the library does.  Time is carried in microseconds so
  that "one microsecond past expiry" is expressible; the library's clock
  is `now / 1000000` (whole seconds).
* HTTP responses produced by the middleware are plain records of the
  status code and the JSON fields the code writes.
-/

namespace WcagAuth

/-- JavaScript `v || d` for an optional string: `undefined` and `""` are
falsy. -/
def jsOrStr : Option String → String → String
  | none, d => d
  | some s, d => if s = "" then d else s

/-- JavaScript `v || d` for an optional integer: `undefined` and `0` are
falsy. -/
def jsOrInt : Option Int → Int → Int
  | none, d => d
  | some n, d => if n = 0 then d else n

/-- The claims object that `generateToken` (auth.js lines 118-130) embeds in
the token: `{ id, email, plan, credits, company }`. -/
structure Claims where
  id : Nat
  email : String
  plan : String
  credits : Int
  company : String
  deriving DecidableEq, Repr

/-- Length-prefixed byte encoding of a string (characters as code points). -/
def encStr (s : String) : List Nat :=
  s.data.length :: s.data.map Char.toNat

/-- Byte encoding of an integer: a sign byte and the magnitude. -/
def encInt (i : Int) : List Nat :=
  [if i < 0 then 1 else 0, i.natAbs]

/-- Serialized token body: the claims plus the `iat` and `exp` fields (in
seconds) that `jwt.sign` adds. -/
def encClaims (c : Claims) (iat ex : Nat) : List Nat :=
  c.id :: (encStr c.email ++ (encStr c.plan ++ (encInt c.credits ++
    (encStr c.company ++ [iat, ex]))))

/-- Decode a length-prefixed string from a byte list, returning the rest. -/
def decStr : List Nat → Option (String × List Nat)
  | [] => none
  | n :: rest =>
    if n ≤ rest.length then
      some (String.mk ((rest.take n).map Char.ofNat), rest.drop n)
    else none

/-- Decode a sign/magnitude integer from a byte list, returning the rest. -/
def decInt : List Nat → Option (Int × List Nat)
  | s :: m :: rest => some (if s = 1 then -(m : Int) else (m : Int), rest)
  | _ => none

/-- Decode a token body back into the claims and the `iat`/`exp` fields. -/
def decClaims (l : List Nat) : Option (Claims × Nat × Nat) :=
  match l with
  | [] => none
  | i :: r0 =>
    match decStr r0 with
    | none => none
    | some (email, r1) =>
      match decStr r1 with
      | none => none
      | some (plan, r2) =>
        match decInt r2 with
        | none => none
        | some (credits, r3) =>
          match decStr r3 with
          | none => none
          | some (company, r4) =>
            match r4 with
            | [a, e] =>
              some ({ id := i, email := email, plan := plan,
                      credits := credits, company := company }, a, e)
            | _ => none

/-- Idealized MAC over the token body: a deterministic function of the
secret and the message, injective in the message for a fixed secret. -/
def macSig (secret : String) (body : List Nat) : List Nat :=
  encStr secret ++ body

/-- A wire token as sent in the `Authorization` header: signed body bytes. -/
structure WireToken where
  body : List Nat
  sig : List Nat
  deriving DecidableEq, Repr

/-- `jwt.sign(payload, secret, { expiresIn })`: serialize the claims with
`iat`/`exp` and attach the MAC. -/
def jwtSign (secret : String) (c : Claims) (iat ex : Nat) : WireToken :=
  { body := encClaims c iat ex, sig := macSig secret (encClaims c iat ex) }

/-- The `jsonwebtoken` verification errors: `TokenExpiredError` and
`JsonWebTokenError` (bad signature or malformed token). -/
inductive JwtError
  | expired
  | invalid
  deriving DecidableEq, Repr

/-- `jwt.verify(token, secret, cb)`: check the signature, decode the body,
and reject with `TokenExpiredError` once the clock (in whole seconds,
`nowUs / 1000000`) reaches the `exp` claim. -/
def jwtVerify (secret : String) (t : WireToken) (nowUs : Nat) :
    Except JwtError Claims :=
  if t.sig = macSig secret t.body then
    match decClaims t.body with
    | none => .error .invalid
    | some (c, _, ex) =>
      if nowUs / 1000000 ≥ ex then .error .expired else .ok c
  else .error .invalid

/-- The `user` object handed to `generateToken`: its `plan` and `credits`
may be absent (`undefined`). -/
structure UserRecord where
  id : Nat
  email : String
  plan : Option String
  credits : Option Int
  company : String
  deriving DecidableEq, Repr

/-- auth.js lines 118-130, `generateToken(user)`: signs
`{ id, email, plan: user.plan || 'developer', credits: user.credits || 0,
company }` with `JWT_SECRET` and `expiresIn: '24h'` (86400 seconds). -/
def generateToken (secret : String) (u : UserRecord) (iat : Nat) : WireToken :=
  jwtSign secret
    { id := u.id, email := u.email, plan := jsOrStr u.plan "developer",
      credits := jsOrInt u.credits 0, company := u.company }
    iat (iat + 86400)

/-- The `message` object of the rate limiter configuration (auth.js
lines 25-29): `{ error, tier, upgradeUrl }`. -/
structure RateLimitMsg where
  error : String
  tier : String
  upgradeUrl : String
  deriving DecidableEq, Repr

/-- The configuration object passed to `rateLimit(...)` (auth.js
lines 22-32). -/
structure RateLimitCfg where
  windowMs : Nat
  max : Nat
  message : RateLimitMsg
  standardHeaders : Bool
  legacyHeaders : Bool
  deriving DecidableEq, Repr

/-- The `limits` lookup object of `createRateLimit` (auth.js lines 14-18):
`(windowMs, max)` per known tier, `none` for any other key. -/
def tierLimits (tier : String) : Option (Nat × Nat) :=
  if tier = "developer" then some (15 * 60 * 1000, 1000)
  else if tier = "compliance" then some (15 * 60 * 1000, 10000)
  else if tier = "enterprise" then some (15 * 60 * 1000, 100000)
  else none

/-- auth.js lines 13-33, `createRateLimit(tier)`: `limits[tier] ||
limits.developer`, a message carrying the tier and an upgrade URL
(`/pricing` for `developer`, `/contact` otherwise). -/
def createRateLimit (tier : String) : RateLimitCfg :=
  let limit := (tierLimits tier).getD (15 * 60 * 1000, 1000)
  { windowMs := limit.1
    max := limit.2
    message :=
      { error := "Rate limit exceeded"
        tier := tier
        upgradeUrl := if tier = "developer" then "/pricing" else "/contact" }
    standardHeaders := true
    legacyHeaders := false }

/-- An error response written by `authenticateToken`: the status code and
the `error` / `message` JSON fields. -/
structure DenialResponse where
  status : Nat
  error : String
  message : String
  deriving DecidableEq, Repr

/-- The 401 response of auth.js lines 41-45 (no token presented). -/
def authRequiredResponse : DenialResponse :=
  { status := 401, error := "Authentication required",
    message := "Please sign in or upgrade your plan" }

/-- The single 403 response of auth.js lines 49-52, returned for every
`jwt.verify` error, expired and invalid alike. -/
def invalidOrExpiredResponse : DenialResponse :=
  { status := 403, error := "Invalid or expired token",
    message := "Please refresh your session" }

/-- Outcome of `authenticateToken`: a terminal error response, or
`req.user` set to the verified claims and the request forwarded to the
tier rate limiter built from `user.plan || 'developer'`. -/
inductive AuthResult
  | denied (r : DenialResponse)
  | authed (user : Claims) (limiter : RateLimitCfg)
  deriving DecidableEq, Repr

/-- auth.js lines 36-62, `authenticateToken(req, res, next)`: 401 when no
bearer token is presented, the single 403 response on any `jwt.verify`
error, otherwise `req.user := user` and the tier limiter is applied. -/
def authenticateToken (secret : String) (token : Option WireToken)
    (nowUs : Nat) : AuthResult :=
  match token with
  | none => .denied authRequiredResponse
  | some t =>
    match jwtVerify secret t nowUs with
    | .error _ => .denied invalidOrExpiredResponse
    | .ok user =>
        .authed user (createRateLimit (jsOrStr (some user.plan) "developer"))

/-- The `features` lookup object of `requireFeature` (auth.js lines 68-72):
the allow-list per known tier, `undefined` for any other key. -/
def tierFeatures (tier : String) : Option (List String) :=
  if tier = "developer" then some ["url_scan", "basic_reports"]
  else if tier = "compliance" then
    some ["url_scan", "vertical_discovery", "ai_fixes", "legal_risk"]
  else if tier = "enterprise" then
    some ["url_scan", "vertical_discovery", "ai_fixes", "legal_risk",
          "api_access", "white_label"]
  else none

/-- The guard `features[user.plan]?.includes(feature)` of auth.js line 74:
an unknown tier gives `undefined`, which is falsy. -/
def isAllowed (tier feature : String) : Bool :=
  match tierFeatures tier with
  | some fs => fs.contains feature
  | none => false

/-- The `upgradePrice` ternary of auth.js lines 80-82: 299 for
`vertical_discovery` and `ai_fixes`, 999 for everything else. -/
def upgradePriceFor (feature : String) : Nat :=
  if feature = "vertical_discovery" then 299
  else if feature = "ai_fixes" then 299
  else 999

/-- The 403 feature-denial response of auth.js lines 75-83. -/
structure FeatureDenial where
  status : Nat
  error : String
  feature : String
  currentPlan : String
  upgradeUrl : String
  upgradePrice : Nat
  deriving DecidableEq, Repr

/-- Outcome of the feature gate: a terminal denial or `next()` with the
request's user unchanged. -/
inductive GateResult
  | denied (d : FeatureDenial)
  | next (user : Claims)
  deriving DecidableEq, Repr

/-- auth.js lines 65-87, `requireFeature(feature)` applied to a request
whose `req.user` is `user`. -/
def requireFeature (feature : String) (user : Claims) : GateResult :=
  if isAllowed user.plan feature then .next user
  else
    .denied
      { status := 403, error := "Feature not available in your plan",
        feature := feature, currentPlan := user.plan,
        upgradeUrl := "/pricing", upgradePrice := upgradePriceFor feature }

/-- One purchasable credit package of the `upgradeOptions` object
(auth.js lines 103-107). -/
structure CreditPackage where
  credits : Nat
  price : Nat
  deriving DecidableEq, Repr

/-- The three purchasable credit packages offered on denial. -/
structure UpgradeOptions where
  starter : CreditPackage
  pro : CreditPackage
  enterprise : CreditPackage
  deriving DecidableEq, Repr

/-- The 402 insufficient-credits response of auth.js lines 97-109. -/
structure CreditDenial where
  status : Nat
  error : String
  required : Int
  remaining : Int
  purchaseUrl : String
  upgradeOptions : UpgradeOptions
  deriving DecidableEq, Repr

/-- Outcome of the credit gate: a terminal 402, or `next()` with
`req.user.credits` decremented. -/
inductive CreditResult
  | denied (d : CreditDenial)
  | next (user : Claims)
  deriving DecidableEq, Repr

/-- auth.js lines 90-115, `checkCredits(req, res, next)`:
`cost = req.body.cost || 1`, `remainingCredits = user.credits || 0`; deny
with the package options when `remainingCredits < cost`, otherwise
`req.user.credits = remainingCredits - cost` and `next()`. -/
def checkCredits (user : Claims) (bodyCost : Option Int) : CreditResult :=
  let cost := jsOrInt bodyCost 1
  let remainingCredits := jsOrInt (some user.credits) 0
  if remainingCredits < cost then
    .denied
      { status := 402, error := "Insufficient credits", required := cost,
        remaining := remainingCredits, purchaseUrl := "/credits",
        upgradeOptions :=
          { starter := { credits := 100, price := 49 }
            pro := { credits := 1000, price := 399 }
            enterprise := { credits := 10000, price := 2999 } } }
  else .next { user with credits := remainingCredits - cost }

/-- Outcome of loading the middleware module: the process either starts
with some signing secret or dies at startup. -/
inductive StartupOutcome
  | started (jwtSecret : String)
  | fatal
  deriving DecidableEq, Repr

/-- auth.js line 10:
`const JWT_SECRET = process.env.JWT_SECRET || 'wcagai-v4-revenue-secret-2025'`.
Module load always succeeds; the expression never consults `NODE_ENV`
(the first argument is ignored, as the code ignores the environment),
never aborts, and never logs which key was chosen. -/
def initJwtSecret (_nodeEnv : String) (envJwtSecret : Option String) :
    StartupOutcome :=
  .started (jsOrStr envJwtSecret "wcagai-v4-revenue-secret-2025")

/-- From the billing module (`StripeBilling.plans`): monthly plan amounts
in cents — developer 4900, compliance 29900, enterprise 99900. -/
def stripePlanAmountCents (tier : String) : Option Nat :=
  if tier = "developer" then some 4900
  else if tier = "compliance" then some 29900
  else if tier = "enterprise" then some 99900
  else none

/-! ### Helper lemmas -/

theorem jsOrStr_some_of_ne (s d : String) (h : s ≠ "") :
    jsOrStr (some s) d = s := by
  simp [jsOrStr, h]

theorem jsOrInt_some_zero (c : Int) : jsOrInt (some c) 0 = c := by
  by_cases h : c = 0 <;> simp [jsOrInt, h]

theorem jsOrInt_some_of_ne (c d : Int) (h : c ≠ 0) : jsOrInt (some c) d = c := by
  simp [jsOrInt, h]

theorem jsOrInt_none (d : Int) : jsOrInt none d = d := rfl

theorem map_ofNat_toNat (l : List Char) :
    l.map (Char.ofNat ∘ Char.toNat) = l := by
  induction l with
  | nil => rfl
  | cons c t ih => simp [ih, Char.ofNat_toNat]

theorem decStr_enc (s : String) (r : List Nat) :
    decStr (encStr s ++ r) = some (s, r) := by
  have hlen : s.data.length ≤ (s.data.map Char.toNat ++ r).length := by simp
  have htake : (s.data.map Char.toNat ++ r).take s.data.length
      = s.data.map Char.toNat := by
    have h := List.take_left (s.data.map Char.toNat) r
    rwa [List.length_map] at h
  have hdrop : (s.data.map Char.toNat ++ r).drop s.data.length = r := by
    have h := List.drop_left (s.data.map Char.toNat) r
    rwa [List.length_map] at h
  simp [decStr, encStr, hlen, htake, hdrop, List.map_map, map_ofNat_toNat]

theorem decInt_enc (i : Int) (r : List Nat) :
    decInt (encInt i ++ r) = some (i, r) := by
  by_cases h : i < 0
  · simp [decInt, encInt, h, abs_of_neg h]
  · have hv : ((i.natAbs : Int)) = i := by omega
    simp [decInt, encInt, h, hv]

theorem decClaims_enc (c : Claims) (iat ex : Nat) :
    decClaims (encClaims c iat ex) = some (c, iat, ex) := by
  simp [decClaims, encClaims, decStr_enc, decInt_enc]

theorem macSig_inj {secret : String} {b b' : List Nat}
    (h : macSig secret b = macSig secret b') : b = b' :=
  List.append_cancel_left h

theorem jwtVerify_jwtSign (secret : String) (c : Claims) (iat ex nowUs : Nat) :
    jwtVerify secret (jwtSign secret c iat ex) nowUs =
      if nowUs / 1000000 ≥ ex then .error .expired else .ok c := by
  simp [jwtVerify, jwtSign, decClaims_enc]

theorem set_ne_of_get_ne {l : List Nat} {i v : Nat} (hi : i < l.length)
    (hv : l.get ⟨i, hi⟩ ≠ v) : l.set i v ≠ l := by
  intro h
  have h2 := congrArg (fun t => t[i]?) h
  simp only [List.getElem?_set_self hi, List.getElem?_eq_getElem hi] at h2
  exact hv ((Option.some.inj h2).symm.trans (by simp))

/-! ### Claim theorems -/

/-- C4: `createRateLimit` uses a fixed 15-minute window (900000 ms) for
every tier, and the ceilings are 1000 for developer, 10000 for compliance,
100000 for enterprise; every unrecognized tier gets the developer ceiling
of 1000. -/
theorem c4_limiter_table :
    (∀ tier, (createRateLimit tier).windowMs = 15 * 60 * 1000) ∧
    (createRateLimit "developer").max = 1000 ∧
    (createRateLimit "compliance").max = 10000 ∧
    (createRateLimit "enterprise").max = 100000 ∧
    (∀ tier, tier ≠ "developer" → tier ≠ "compliance" → tier ≠ "enterprise" →
      (createRateLimit tier).max = 1000) := by
  refine ⟨fun tier => ?_, rfl, rfl, rfl, fun tier h1 h2 h3 => ?_⟩
  · simp only [createRateLimit, tierLimits]
    split_ifs <;> rfl
  · simp [createRateLimit, tierLimits, h1, h2, h3]

/-- Witness for C4 at the unrecognized tier `"gold"`. -/
theorem c4_limiter_table_witness :
    (createRateLimit "gold").windowMs = 15 * 60 * 1000 ∧
    (createRateLimit "gold").max = 1000 :=
  ⟨c4_limiter_table.1 "gold",
   c4_limiter_table.2.2.2.2 "gold" (by decide) (by decide) (by decide)⟩

/-- C5: `isAllowed` agrees with the static allow-list table on all three
known tiers and all named features; any feature outside the table is denied
for every tier, and an unknown tier has the empty feature set, so every
feature is denied for it. -/
theorem c5_feature_table :
    (isAllowed "developer" "url_scan" = true ∧
     isAllowed "developer" "basic_reports" = true ∧
     isAllowed "developer" "vertical_discovery" = false ∧
     isAllowed "developer" "ai_fixes" = false ∧
     isAllowed "developer" "legal_risk" = false ∧
     isAllowed "developer" "api_access" = false ∧
     isAllowed "developer" "white_label" = false) ∧
    (isAllowed "compliance" "url_scan" = true ∧
     isAllowed "compliance" "basic_reports" = false ∧
     isAllowed "compliance" "vertical_discovery" = true ∧
     isAllowed "compliance" "ai_fixes" = true ∧
     isAllowed "compliance" "legal_risk" = true ∧
     isAllowed "compliance" "api_access" = false ∧
     isAllowed "compliance" "white_label" = false) ∧
    (isAllowed "enterprise" "url_scan" = true ∧
     isAllowed "enterprise" "basic_reports" = false ∧
     isAllowed "enterprise" "vertical_discovery" = true ∧
     isAllowed "enterprise" "ai_fixes" = true ∧
     isAllowed "enterprise" "legal_risk" = true ∧
     isAllowed "enterprise" "api_access" = true ∧
     isAllowed "enterprise" "white_label" = true) ∧
    (∀ tier feature, feature ≠ "url_scan" → feature ≠ "basic_reports" →
      feature ≠ "vertical_discovery" → feature ≠ "ai_fixes" →
      feature ≠ "legal_risk" → feature ≠ "api_access" →
      feature ≠ "white_label" → isAllowed tier feature = false) ∧
    (∀ tier, tier ≠ "developer" → tier ≠ "compliance" → tier ≠ "enterprise" →
      ∀ feature, isAllowed tier feature = false) := by
  refine ⟨by decide, by decide, by decide,
    fun tier feature h1 h2 h3 h4 h5 h6 h7 => ?_, fun tier h1 h2 h3 feature => ?_⟩
  · simp only [isAllowed, tierFeatures]
    split_ifs <;> simp [h1, h2, h3, h4, h5, h6, h7]
  · simp [isAllowed, tierFeatures, h1, h2, h3]

/-- Witness for C5: the unknown feature `"pdf_export"` is denied for a
known tier, and the unknown tier `"pro"` is denied a known gated feature. -/
theorem c5_feature_table_witness :
    isAllowed "developer" "pdf_export" = false ∧
    isAllowed "pro" "ai_fixes" = false :=
  ⟨c5_feature_table.2.2.2.1 "developer" "pdf_export" (by decide) (by decide)
      (by decide) (by decide) (by decide) (by decide) (by decide),
   c5_feature_table.2.2.2.2 "pro" (by decide) (by decide) (by decide)
      "ai_fixes"⟩

/-- C8: every denial of `requireFeature` carries the feature name, the
caller's current tier, and a feature-specific upgrade price; every feature
outside the `{vertical_discovery, ai_fixes}` price mapping defaults to 999,
which is the highest (enterprise) plan's monthly price in dollars. -/
theorem c8_denial_payload (user : Claims) (feature : String)
    (h : isAllowed user.plan feature = false) :
    requireFeature feature user =
      .denied { status := 403, error := "Feature not available in your plan",
                feature := feature, currentPlan := user.plan,
                upgradeUrl := "/pricing",
                upgradePrice := upgradePriceFor feature } ∧
    upgradePriceFor "vertical_discovery" = 299 ∧
    upgradePriceFor "ai_fixes" = 299 ∧
    (∀ f, f ≠ "vertical_discovery" → f ≠ "ai_fixes" →
      upgradePriceFor f = 999 ∧
      stripePlanAmountCents "enterprise" = some (upgradePriceFor f * 100)) := by
  refine ⟨?_, rfl, rfl, fun f h1 h2 => ?_⟩
  · simp [requireFeature, h]
  · constructor
    · simp [upgradePriceFor, h1, h2]
    · simp [upgradePriceFor, stripePlanAmountCents, h1, h2]

/-- Witness for C8: a developer-tier caller denied `"api_access"`. -/
theorem c8_denial_payload_witness :
    requireFeature "api_access"
        { id := 8, email := "w", plan := "developer", credits := 3,
          company := "q" } =
      .denied { status := 403, error := "Feature not available in your plan",
                feature := "api_access", currentPlan := "developer",
                upgradeUrl := "/pricing",
                upgradePrice := upgradePriceFor "api_access" } ∧
    upgradePriceFor "api_access" = 999 :=
  ⟨(c8_denial_payload
      { id := 8, email := "w", plan := "developer", credits := 3,
        company := "q" } "api_access" (by decide)).1,
   ((c8_denial_payload
      { id := 8, email := "w", plan := "developer", credits := 3,
        company := "q" } "api_access" (by decide)).2.2.2 "api_access"
      (by decide) (by decide)).1⟩

/-- C9: a strictly negative cost in the request body passes the credit
check (a non-negative balance is never below a negative cost) and the
"deduction" adds to the balance: the new balance `credits - cost` is
strictly greater than the old one. -/
theorem c9_negative_cost (user : Claims) (c : Int) (hneg : c < 0)
    (hnn : 0 ≤ user.credits) :
    checkCredits user (some c) =
      .next { user with credits := user.credits - c } ∧
    user.credits < user.credits - c := by
  have hc : c ≠ 0 := by omega
  constructor
  · simp only [checkCredits, jsOrInt_some_of_ne c 1 hc, jsOrInt_some_zero]
    rw [if_neg (by omega)]
  · omega

/-- Witness for C9: balance 5, body cost -3, new balance 8. -/
theorem c9_negative_cost_witness :
    checkCredits
        { id := 9, email := "n", plan := "developer", credits := 5,
          company := "z" } (some (-3)) =
      .next { id := 9, email := "n", plan := "developer", credits := 5 - (-3),
              company := "z" } ∧
    (5 : Int) < 5 - (-3) :=
  c9_negative_cost
    { id := 9, email := "n", plan := "developer", credits := 5,
      company := "z" } (-3) (by decide) (by decide)

/-- C10: an unrecognized tier is throttled at the developer ceiling of
1000, yet its `RateLimited` message carries the `/contact` upgrade hint of
the non-developer tiers, not the `/pricing` hint the developer tier gets. -/
theorem c10_unknown_tier_hint (tier : String) (h1 : tier ≠ "developer")
    (h2 : tier ≠ "compliance") (h3 : tier ≠ "enterprise") :
    (createRateLimit tier).max = 1000 ∧
    (createRateLimit tier).message.upgradeUrl = "/contact" ∧
    (createRateLimit "developer").message.upgradeUrl = "/pricing" ∧
    (createRateLimit "compliance").message.upgradeUrl = "/contact" := by
  refine ⟨?_, ?_, rfl, rfl⟩
  · simp [createRateLimit, tierLimits, h1, h2, h3]
  · simp [createRateLimit, h1]

/-- Witness for C10 at the unrecognized tier `"trial"`. -/
theorem c10_unknown_tier_hint_witness :
    (createRateLimit "trial").max = 1000 ∧
    (createRateLimit "trial").message.upgradeUrl = "/contact" ∧
    (createRateLimit "developer").message.upgradeUrl = "/pricing" ∧
    (createRateLimit "compliance").message.upgradeUrl = "/contact" :=
  c10_unknown_tier_hint "trial" (by decide) (by decide) (by decide)

/-- The 402 response `checkCredits` writes, as a function of the required
cost and the remaining balance (auth.js lines 97-109). -/
def creditDenialOf (required remaining : Int) : CreditDenial :=
  { status := 402, error := "Insufficient credits", required := required,
    remaining := remaining, purchaseUrl := "/credits",
    upgradeOptions :=
      { starter := { credits := 100, price := 49 }
        pro := { credits := 1000, price := 399 }
        enterprise := { credits := 10000, price := 2999 } } }

/-- Sample user for the C3 scenario with balance 5. -/
def c3u5 : Claims :=
  { id := 31, email := "u", plan := "compliance", credits := 5,
    company := "s5" }

/-- Sample user for the C3 scenario with tier `compliance`, balance 10. -/
def c3u10 : Claims :=
  { id := 32, email := "v", plan := "compliance", credits := 10,
    company := "s10" }

/-- C3 counterexample: with balance 5 and an explicit numeric cost of 0 in
the request body, `checkCredits` charges 1 credit (JS `0 || 1` takes the
default), leaving balance 4 — not the balance 5 the claim's "decremented
by cost" rule requires for cost 0. -/
theorem c3_zero_cost_counterexample :
    checkCredits { id := 3, email := "e", plan := "developer", credits := 5,
                   company := "x" } (some 0) =
      .next { id := 3, email := "e", plan := "developer", credits := 4,
              company := "x" } ∧
    (4 : Int) ≠ 5 - 0 :=
  ⟨rfl, by decide⟩

/-- C3 (amended): for every nonzero numeric body cost, `checkCredits`
returns `next` with the balance decremented by the cost when the balance
covers it, and otherwise the 402 response carrying the required cost, the
current balance and the three credit packages (100/$49, 1000/$399,
10000/$2999); an absent body cost defaults to 1 (and so does a zero cost,
which is falsy in JS).  The spec's two scenarios hold: from balance 5,
cost 3 gives balances 5→2 then insufficient {required 3, remaining 2};
from balance 10, three charges of cost 4 give 10→6→2 then insufficient
{required 4, remaining 2}. -/
theorem c3_charge_amended (user : Claims) (c : Int) (hc : c ≠ 0) :
    (c ≤ user.credits →
      checkCredits user (some c) =
        .next { user with credits := user.credits - c }) ∧
    (user.credits < c →
      checkCredits user (some c) =
        .denied (creditDenialOf c user.credits)) ∧
    (1 ≤ user.credits →
      checkCredits user none =
        .next { user with credits := user.credits - 1 }) ∧
    (user.credits < 1 →
      checkCredits user none = .denied (creditDenialOf 1 user.credits)) ∧
    (checkCredits c3u5 (some 3) = .next { c3u5 with credits := 2 } ∧
     checkCredits { c3u5 with credits := 2 } (some 3) =
       .denied (creditDenialOf 3 2)) ∧
    (checkCredits c3u10 (some 4) = .next { c3u10 with credits := 6 } ∧
     checkCredits { c3u10 with credits := 6 } (some 4) =
       .next { c3u10 with credits := 2 } ∧
     checkCredits { c3u10 with credits := 2 } (some 4) =
       .denied (creditDenialOf 4 2)) := by
  refine ⟨fun h => ?_, fun h => ?_, fun h => ?_, fun h => ?_,
    by constructor <;> rfl, by refine ⟨rfl, rfl, rfl⟩⟩
  · simp only [checkCredits, jsOrInt_some_of_ne c 1 hc, jsOrInt_some_zero]
    rw [if_neg (by omega)]
  · simp only [checkCredits, jsOrInt_some_of_ne c 1 hc, jsOrInt_some_zero]
    rw [if_pos (by omega)]
    rfl
  · simp only [checkCredits, jsOrInt_none, jsOrInt_some_zero]
    rw [if_neg (by omega)]
  · simp only [checkCredits, jsOrInt_none, jsOrInt_some_zero]
    rw [if_pos (by omega)]
    rfl

/-- Witness for C3 (amended): balance 5, cost 3, new balance 2. -/
theorem c3_charge_amended_witness :
    (3 : Int) ≤ c3u5.credits ∧
    checkCredits c3u5 (some 3) =
      .next { c3u5 with credits := c3u5.credits - 3 } :=
  ⟨by decide, (c3_charge_amended c3u5 3 (by decide)).1 (by decide)⟩

/-- C7 counterexample: with `NODE_ENV = "production"` and no `JWT_SECRET`
configured, loading the middleware module succeeds with the hardcoded
fallback secret — it does not fail fast at startup. -/
theorem c7_counterexample :
    initJwtSecret "production" none =
      .started "wcagai-v4-revenue-secret-2025" ∧
    initJwtSecret "production" none ≠ .fatal :=
  ⟨rfl, by decide⟩

/-- C7 (amended): the signing key is read from the environment when set,
but a missing key is never fatal in any environment: the process always
starts, silently substituting the hardcoded fallback key
`wcagai-v4-revenue-secret-2025` (the code never consults the environment
name and never logs which key was chosen). -/
theorem c7_fallback_amended :
    (∀ env sec, initJwtSecret env sec =
      .started (jsOrStr sec "wcagai-v4-revenue-secret-2025")) ∧
    (∀ env sec, initJwtSecret env sec ≠ .fatal) ∧
    (∀ env, initJwtSecret env none =
      .started "wcagai-v4-revenue-secret-2025") := by
  refine ⟨fun _ _ => rfl, fun env sec h => ?_, fun _ => rfl⟩
  simp [initJwtSecret] at h

/-- Sample identity for the C1 theorems. -/
def c1u : UserRecord :=
  { id := 1, email := "a", plan := some "developer", credits := some 5,
    company := "co" }

/-- C1 counterexample: one microsecond past the 24-hour expiry the
middleware does not return a distinct `Expired` error.  `jwt.verify`
itself reports `TokenExpiredError`, but `authenticateToken` answers with
exactly the same 403 `'Invalid or expired token'` response it gives a
token whose signature does not validate (here: the same token with one
signature byte changed), so no `AuthError::Expired` distinct from
`AuthError::Invalid` reaches the caller. -/
theorem c1_counterexample :
    jwtVerify "s" (generateToken "s" c1u 0) 86400000001 = .error .expired ∧
    jwtVerify "s"
        { body := (generateToken "s" c1u 0).body,
          sig := 999 :: (generateToken "s" c1u 0).sig.tail } 86400000001 =
      .error .invalid ∧
    authenticateToken "s" (some (generateToken "s" c1u 0)) 86400000001 =
      authenticateToken "s"
        (some { body := (generateToken "s" c1u 0).body,
                sig := 999 :: (generateToken "s" c1u 0).sig.tail })
        86400000001 ∧
    authenticateToken "s" (some (generateToken "s" c1u 0)) 86400000001 =
      .denied invalidOrExpiredResponse :=
  ⟨rfl, rfl, rfl, rfl⟩

/-- C1 (amended): for every valid identity (a plan that is one of the
three tiers and a non-negative credit balance), verifying a token issued
for it within the 24-hour validity window authenticates with the identity
claims exactly as issued; one microsecond past the 24-hour expiry the
request is rejected, but with the single 403 `'Invalid or expired token'`
response, not a distinct `Expired` error. -/
theorem c1_roundtrip_amended (secret : String) (u : UserRecord) (t : String)
    (c : Int) (iat nowUs : Nat) (hplan : u.plan = some t)
    (ht : t = "developer" ∨ t = "compliance" ∨ t = "enterprise")
    (hcred : u.credits = some c) (_hc0 : 0 ≤ c)
    (hwin : nowUs / 1000000 < iat + 86400) :
    authenticateToken secret (some (generateToken secret u iat)) nowUs =
      .authed { id := u.id, email := u.email, plan := t, credits := c,
                company := u.company } (createRateLimit t) ∧
    authenticateToken secret (some (generateToken secret u iat))
        ((iat + 86400) * 1000000 + 1) =
      .denied invalidOrExpiredResponse := by
  have htne : t ≠ "" := by rcases ht with h | h | h <;> subst h <;> decide
  have hgen : generateToken secret u iat =
      jwtSign secret
        { id := u.id, email := u.email, plan := t, credits := c,
          company := u.company } iat (iat + 86400) := by
    simp [generateToken, hplan, hcred, jsOrStr_some_of_ne t _ htne,
      jsOrInt_some_zero]
  constructor
  · have hv : jwtVerify secret
        (jwtSign secret
          { id := u.id, email := u.email, plan := t, credits := c,
            company := u.company } iat (iat + 86400)) nowUs =
        .ok { id := u.id, email := u.email, plan := t, credits := c,
              company := u.company } := by
      rw [jwtVerify_jwtSign, if_neg (by omega)]
    rw [hgen]
    simp [authenticateToken, hv, jsOrStr_some_of_ne t "developer" htne]
  · have hv : jwtVerify secret
        (jwtSign secret
          { id := u.id, email := u.email, plan := t, credits := c,
            company := u.company } iat (iat + 86400))
        ((iat + 86400) * 1000000 + 1) = .error .expired := by
      rw [jwtVerify_jwtSign, if_pos (by omega)]
    rw [hgen]
    simp [authenticateToken, hv]

/-- Witness for C1 (amended), at a concrete developer identity verified
one second after issuance. -/
theorem c1_roundtrip_amended_witness :
    authenticateToken "s" (some (generateToken "s" c1u 0)) 1000000 =
      .authed { id := c1u.id, email := c1u.email, plan := "developer",
                credits := 5, company := c1u.company }
        (createRateLimit "developer") ∧
    authenticateToken "s" (some (generateToken "s" c1u 0))
        ((0 + 86400) * 1000000 + 1) =
      .denied invalidOrExpiredResponse :=
  c1_roundtrip_amended "s" c1u "developer" 5 0 1000000 rfl (Or.inl rfl) rfl
    (by decide) (by decide)

/-- Sample identity for the C2 theorems. -/
def c2u : UserRecord :=
  { id := 2, email := "b", plan := some "compliance", credits := some 0,
    company := "d" }

/-- C2 counterexample: the middleware does not classify failures into
three distinct typed errors.  At the `jsonwebtoken` layer an expired token
and a malformed token are reported differently (`TokenExpiredError` vs
`JsonWebTokenError`), but `authenticateToken` returns the identical 403
response for both, so `Invalid` and `Expired` are indistinguishable to the
caller. -/
theorem c2_counterexample :
    jwtVerify "k" (generateToken "k" c2u 0) 86400000001 = .error .expired ∧
    jwtVerify "k" { body := [], sig := [] } 86400000001 = .error .invalid ∧
    authenticateToken "k" (some (generateToken "k" c2u 0)) 86400000001 =
      authenticateToken "k" (some { body := [], sig := [] }) 86400000001 :=
  ⟨rfl, rfl, rfl⟩

/-- C2 (amended): `authenticateToken` is a total function (it never throws
past the boundary) that classifies failures into exactly two distinct
responses: the 401 `'Authentication required'` response when no token is
presented, and the single 403 `'Invalid or expired token'` response for
malformed tokens, bad signatures and expired tokens alike.  Tampering with
one byte of a previously valid token — in the body or in the signature —
yields that 403 response, never a crash. -/
theorem c2_error_taxonomy_amended (secret : String) (u : UserRecord)
    (iat : Nat) :
    (∀ nowUs, authenticateToken secret none nowUs =
      .denied authRequiredResponse) ∧
    (∀ tok nowUs,
      authenticateToken secret (some tok) nowUs =
        .denied invalidOrExpiredResponse ∨
      ∃ cl lim, authenticateToken secret (some tok) nowUs =
        .authed cl lim) ∧
    (∀ i v, ∀ hi : i < (generateToken secret u iat).body.length,
      (generateToken secret u iat).body.get ⟨i, hi⟩ ≠ v →
      ∀ nowUs, authenticateToken secret
        (some { body := (generateToken secret u iat).body.set i v,
                sig := (generateToken secret u iat).sig }) nowUs =
        .denied invalidOrExpiredResponse) ∧
    (∀ j v, ∀ hj : j < (generateToken secret u iat).sig.length,
      (generateToken secret u iat).sig.get ⟨j, hj⟩ ≠ v →
      ∀ nowUs, authenticateToken secret
        (some { body := (generateToken secret u iat).body,
                sig := (generateToken secret u iat).sig.set j v }) nowUs =
        .denied invalidOrExpiredResponse) ∧
    authRequiredResponse ≠ invalidOrExpiredResponse := by
  refine ⟨fun _ => rfl, fun tok nowUs => ?_, fun i v hi hv nowUs => ?_,
    fun j v hj hv nowUs => ?_, by decide⟩
  · cases h : jwtVerify secret tok nowUs with
    | error e => exact Or.inl (by simp [authenticateToken, h])
    | ok cl =>
        exact Or.inr ⟨cl, createRateLimit (jsOrStr (some cl.plan) "developer"),
          by simp [authenticateToken, h]⟩
  · have hne : (generateToken secret u iat).body.set i v ≠
        (generateToken secret u iat).body := set_ne_of_get_ne hi hv
    have hs : (generateToken secret u iat).sig =
        macSig secret (generateToken secret u iat).body := rfl
    have hv2 : jwtVerify secret
        { body := (generateToken secret u iat).body.set i v,
          sig := (generateToken secret u iat).sig } nowUs = .error .invalid := by
      unfold jwtVerify
      rw [if_neg ?hcond]
      case hcond =>
        intro heq
        exact hne (macSig_inj (heq.symm.trans hs))
    simp [authenticateToken, hv2]
  · have hne : (generateToken secret u iat).sig.set j v ≠
        (generateToken secret u iat).sig := set_ne_of_get_ne hj hv
    have hs : (generateToken secret u iat).sig =
        macSig secret (generateToken secret u iat).body := rfl
    have hv2 : jwtVerify secret
        { body := (generateToken secret u iat).body,
          sig := (generateToken secret u iat).sig.set j v } nowUs =
        .error .invalid := by
      unfold jwtVerify
      rw [if_neg ?hcond]
      case hcond =>
        intro heq
        exact hne (heq.trans hs.symm)
    simp [authenticateToken, hv2]

/-- Witness for C2 (amended): flipping the first body byte of a concrete
valid token yields the 403 response. -/
theorem c2_error_taxonomy_amended_witness :
    authenticateToken "k"
      (some { body := (generateToken "k" c2u 0).body.set 0 999,
              sig := (generateToken "k" c2u 0).sig }) 7 =
      .denied invalidOrExpiredResponse := by
  have h1 : 0 < (generateToken "k" c2u 0).body.length := by decide
  have h2 : (generateToken "k" c2u 0).body.get ⟨0, h1⟩ ≠ 999 := by
    have hval : (generateToken "k" c2u 0).body.get ⟨0, h1⟩ = 2 := rfl
    rw [hval]
    decide
  exact (c2_error_taxonomy_amended "k" c2u 0).2.2.1 0 999 h1 h2 7

end WcagAuth
